import Mathlib

/-!
Verification of the AIGPT chat application (`src/app.py`).

The application is a Streamlit script: every UI event re-executes the whole
script from the top, with `st.session_state` persisting across runs and
`st.stop()` / `st.rerun()` halting the current run.  We embed one script
execution as a pure function `run` over an explicit session state, an
explicit store state, and a record of UI inputs; each execution returns the
updated session and store together with an ordered trace of store/agent
effects, the error messages shown, the halt mode, and what the message view
rendered.

The database layer (`utils/dbutils.py`) is imported by `app.py` but its
source is not part of the repository snapshot; its operations are modelled
from the specification (section 4.1 Credential Store and 4.2 Chat Store).
-/

namespace AIGPT

/-- A user account row.  Modelled from the spec:
`User = {username (unique key), full_name, email, password_hash}`. -/
structure User where
  username : String
  full_name : String
  email : String
  password_hash : String
deriving Repr, DecidableEq

/-- A single chat message.  Modelled from the spec:
`Message = {chat_id, role (user | assistant), content, order}`; ordering is
the position in the owning chat's list. -/
structure Msg where
  role : String
  content : String
deriving Repr, DecidableEq

/-- A chat record together with its messages, in insertion order.
Modelled from the spec:
`Chat = {chat_id (unique key), owner_username, display_name (nullable)}`. -/
structure Chat where
  owner : String
  display_name : Option String
  messages : List Msg
deriving Repr, DecidableEq

/-- The persistent store backing the Credential Store and the Chat Store:
user rows plus an association list from chat_id to chat record.
Modelled from the spec (section 3 data model). -/
structure Store where
  users : List User
  chats : List (String × Chat)
deriving Repr, DecidableEq

/-- Modelled from the spec: the password hashing primitive is an external
collaborator ("assume a standard secure hash function is available"); we
model it as an injective encoding. -/
def hashPassword (p : String) : String := "hash:" ++ p

/-- Modelled from the spec: `get_user(username) → User|NotFound`
(`get_user_by_username` in `utils.dbutils`). -/
def get_user_by_username (s : Store) (u : String) : Option User :=
  s.users.find? (fun x => x.username == u)

/-- Modelled from the spec: `verify_credentials(username, password) → bool`,
failing closed (false) on a missing user or a hash mismatch
(`verify_user_credentials` in `utils.dbutils`). -/
def verify_user_credentials (s : Store) (u p : String) : Bool :=
  match get_user_by_username s u with
  | some user => user.password_hash == hashPassword p
  | none => false

/-- Modelled from the spec:
`create_user(username, full_name, email, password) → success|UsernameTaken`;
stores a hash of the password, never the plaintext.  `none` models failure
with the store unchanged. -/
def create_user (s : Store) (u n e p : String) : Option Store :=
  if (get_user_by_username s u).isSome then none
  else some { s with users := s.users ++ [⟨u, n, e, hashPassword p⟩] }

/-- Chat lookup by chat_id (the store's unique key). -/
def get_chat (s : Store) (cid : String) : Option Chat :=
  s.chats.lookup cid

/-- Rewrite the chat row keyed `cid` through `f`, leaving other rows
unchanged (the row-update primitive of the modelled Chat Store). -/
def setChat (l : List (String × Chat)) (cid : String) (f : Chat → Chat) :
    List (String × Chat) :=
  l.map (fun p => if p.1 == cid then (p.1, f p.2) else p)

/-- Modelled from the spec:
`insert_message(username, chat_id, role, content) → success|Forbidden`:
appends, after validating that `chat_id` belongs to `username`
(authorization check), failing closed (`none`, store unchanged) otherwise.
A chat_id not yet present is created owned by `username` — this matches
`app.py`, which never creates a chat row explicitly and seeds new chats
through `insert_message` on a fresh id. -/
def insert_message (s : Store) (u cid role content : String) : Option Store :=
  match get_chat s cid with
  | some c =>
      if c.owner == u then
        some { s with chats := setChat s.chats cid (fun ch => { ch with messages := ch.messages ++ [⟨role, content⟩] }) }
      else none
  | none => some { s with chats := s.chats ++ [(cid, ⟨u, none, [⟨role, content⟩]⟩)] }

/-- The trailing window of a list: its last `n` elements, in order. -/
def lastN (n : Nat) (xs : List α) : List α := xs.drop (xs.length - n)

/-- Modelled from the spec: `get_chat_history(chat_id, n)` returns the
most-recent `n` `(role, content)` pairs in chronological order — a bounded
read, never the full history.  An unknown chat_id yields the empty list. -/
def get_chat_history (s : Store) (cid : String) (n : Nat) : List (String × String) :=
  match get_chat s cid with
  | some c => (lastN n c.messages).map (fun m => (m.role, m.content))
  | none => []

/-- Modelled from the spec: `get_all_chats_for_user(username)` lists the
`(chat_id, display_name)` pairs of the chats owned by `username`, in a
deterministic (creation) order (`get_all_chat_ids_for_user` in
`utils.dbutils`). -/
def get_all_chat_ids_for_user (s : Store) (u : String) : List (String × Option String) :=
  (s.chats.filter (fun p => p.2.owner == u)).map (fun p => (p.1, p.2.display_name))

/-- Modelled from the spec:
`update_chat_name(chat_id, new_name) → success|NotFound`. -/
def update_chat_name (s : Store) (cid nm : String) : Option Store :=
  match get_chat s cid with
  | some _ => some { s with chats := setChat s.chats cid (fun ch => { ch with display_name := some nm }) }
  | none => none

/-- Modelled from the spec: `delete_chat(chat_id) → success|NotFound`,
removing the chat record and cascading to all its messages atomically. -/
def delete_chat (s : Store) (cid : String) : Option Store :=
  match get_chat s cid with
  | some _ => some { s with chats := s.chats.filter (fun p => !(p.1 == cid)) }
  | none => none

/-- The per-browser session state held in `st.session_state` (`app.py`
lines 44-47).  `chat_id = none` models the `chat_id` key being absent from
`st.session_state`; `chat_id = some none` models the key present with value
`None` (as set by the delete-chat handler, line 133). -/
structure SessionState where
  authenticated : Bool
  username : Option String
  name : Option String
  chat_id : Option (Option String)
deriving Repr, DecidableEq

/-- The fresh session produced by the lines-44-47 initialization (and, up
to the re-initialization on the next run, by `st.session_state.clear()` in
the logout handler). -/
def initSession : SessionState :=
  { authenticated := false, username := none, name := none, chat_id := none }

/-- A langchain chat message, as built by `get_langchain_messages`
(`HumanMessage` / `AIMessage`). -/
inductive LCMessage where
  | human (content : String)
  | ai (content : String)
deriving Repr, DecidableEq

/-- One observable effect of a script run: a Credential-Store or Chat-Store
call, or the agent invocation.  The trace order is the order the calls are
issued in `app.py`. -/
inductive Effect where
  | verifyCredentials (u p : String)
  | getUser (u : String)
  | createUser (u n e p : String)
  | getAllChats (u : String)
  | insertMessage (u cid role content : String)
  | updateChatName (cid nm : String)
  | deleteChat (cid : String)
  | getChatHistory (cid : String) (n : Nat)
  | agentInvoke (input : String)
deriving Repr, DecidableEq

/-- The chat_id a store effect touches, if any. -/
def Effect.chatId : Effect → Option String
  | .insertMessage _ cid _ _ => some cid
  | .updateChatName cid _ => some cid
  | .deleteChat cid => some cid
  | Effect.getChatHistory cid _ => some cid
  | _ => none

/-- How a script run halted: `st.stop()` (availability gate) or
`st.rerun()`; `none` means the script ran to the end. -/
inductive Halt where
  | stop
  | rerun
deriving Repr, DecidableEq

/-- What the message view rendered on a completed run: the active chat_id,
the bounded reasoning context loaded into agent memory (lines 164-169), and
the `(role, content)` pairs written by the display loop (lines 232-233). -/
structure RenderInfo where
  chat_id : String
  context : List LCMessage
  displayed : List (String × String)
deriving Repr, DecidableEq

/-- The UI inputs of one script run: which widgets fired and with what
values.  `freshSuffix` models `uuid.uuid4().hex[:8]`; `agentResponse`
models the external reasoning loop's `response["output"]`. -/
structure RunInput where
  loginBtn : Bool
  usernameInput : String
  passwordInput : String
  registerBtn : Bool
  regUsername : String
  regName : String
  regEmail : String
  regPassword : String
  regConfirm : String
  saveNameBtn : Bool
  renameValue : String
  deleteBtn : Bool
  newChatBtn : Bool
  logoutBtn : Bool
  selectedChatIdx : Nat
  chatInput : Option String
  freshSuffix : String
  agentResponse : String
deriving Repr, DecidableEq

/-- A quiescent input: no widget fired.  This is what a bare rerun (no new
user interaction) delivers. -/
def idleInput (suffix : String) : RunInput :=
  { loginBtn := false, usernameInput := "", passwordInput := ""
    registerBtn := false, regUsername := "", regName := "", regEmail := ""
    regPassword := "", regConfirm := ""
    saveNameBtn := false, renameValue := ""
    deleteBtn := false, newChatBtn := false, logoutBtn := false
    selectedChatIdx := 0, chatInput := none
    freshSuffix := suffix, agentResponse := "" }

/-- The running state of one script execution, threaded through the
script's sections. -/
structure ScriptSt where
  session : SessionState
  store : Store
  effects : List Effect
  errors : List String
  halted : Option Halt
  render : Option RenderInfo
deriving Repr, DecidableEq

/-- The fixed unavailable message (`app.py` line 53). -/
def unavailableMsg : String := "🚫 The app is currently down. Please try again later."

/-- Python's `str.strip()`: drop whitespace from both ends.  (Defined over
the character list so that it evaluates by kernel reduction.) -/
def pyStrip (s : String) : String :=
  ⟨(((s.data.dropWhile (·.isWhitespace)).reverse.dropWhile (·.isWhitespace)).reverse)⟩

/-- Python's `str.upper()` (ASCII case mapping suffices for the values the
availability switch takes).  (Defined over the character list so that it
evaluates by kernel reduction.) -/
def pyUpper (s : String) : String := ⟨s.data.map Char.toUpper⟩

/-- The greeting seeded when a user has no chats (`app.py` line 118). -/
def greetingNoChats (u : String) : String :=
  "👋 Hello! " ++ u ++ ", i am your AI assistant. How can I help you today?"

/-- The greeting seeded by the New Chat button (`app.py` line 141). -/
def greetingNewChat (u : String) : String :=
  "👋 Hello! " ++ u ++ ", i am your AIGPT. How can I help you today?"

/-- The availability gate (`app.py` lines 52-54): when
`APP_STATUS.strip().upper() != "ON"`, show the fixed unavailable message and
stop execution. -/
def stageGate (appStatus : String) (st : ScriptSt) : ScriptSt :=
  if pyUpper (pyStrip appStatus) ≠ "ON" then
    { st with errors := st.errors ++ [unavailableMsg], halted := some .stop }
  else st

/-- The login form handler (`app.py` lines 59-75): on submit, authenticate
iff the Credential Store verifies the pair; on success set the session from
the stored user, give it a fresh chat_id and rerun; on failure surface an
error and stay anonymous. -/
def stageLogin (inp : RunInput) (st : ScriptSt) : ScriptSt :=
  if st.halted.isSome then st else
  if st.session.authenticated then st else
  if inp.loginBtn then
    if verify_user_credentials st.store inp.usernameInput inp.passwordInput then
      let user := (get_user_by_username st.store inp.usernameInput).getD
        ⟨inp.usernameInput, "", "", ""⟩
      { st with
        session :=
          { authenticated := true
            username := some user.username
            name := some user.full_name
            chat_id := some (some (user.username ++ "_" ++ inp.freshSuffix)) }
        effects := st.effects ++
          [Effect.verifyCredentials inp.usernameInput inp.passwordInput, Effect.getUser inp.usernameInput]
        halted := some .rerun }
    else
      { st with
        effects := st.effects ++ [Effect.verifyCredentials inp.usernameInput inp.passwordInput]
        errors := st.errors ++ ["Incorrect username or password."] }
  else st

/-- The registration handler (`app.py` lines 80-101): guarded by matching
passwords and an unused username; never touches the session state. -/
def stageRegister (inp : RunInput) (st : ScriptSt) : ScriptSt :=
  if st.halted.isSome then st else
  if st.session.authenticated then st else
  if inp.registerBtn then
    if inp.regPassword ≠ inp.regConfirm then
      { st with errors := st.errors ++ ["Passwords do not match."] }
    else if (get_user_by_username st.store inp.regUsername).isSome then
      { st with
        effects := st.effects ++ [Effect.getUser inp.regUsername]
        errors := st.errors ++ ["Username already exists."] }
    else
      match create_user st.store inp.regUsername inp.regName inp.regEmail inp.regPassword with
      | some s' =>
        { st with
          store := s'
          effects := st.effects ++ [Effect.getUser inp.regUsername,
            Effect.createUser inp.regUsername inp.regName inp.regEmail inp.regPassword] }
      | none =>
        { st with
          effects := st.effects ++ [Effect.getUser inp.regUsername,
            Effect.createUser inp.regUsername inp.regName inp.regEmail inp.regPassword]
          errors := st.errors ++ ["User creation failed."] }
  else st

/-- The sidebar radio selection (`app.py` lines 121-122): the option list
is `range(len(chat_ids))` and the widget yields a valid index (defaulting
to 0), so the selected chat is `chat_ids[i]` for the clamped index. -/
def selectedChat (store : Store) (u : String) (i : Nat) : String :=
  let chat_ids := (get_all_chat_ids_for_user store u).map Prod.fst
  chat_ids.getD (if i < chat_ids.length then i else 0) ""

/-- `get_langchain_messages` (`app.py` lines 164-166): the last 3 messages
of the chat, tagged human/ai by role. -/
def get_langchain_messages (s : Store) (cid : String) : List LCMessage :=
  (get_chat_history s cid 3).map (fun rm =>
    if rm.1 == "user" then .human rm.2 else .ai rm.2)

/-- The authenticated view (`app.py` lines 106-247): sidebar chat list,
auto-create on empty, rename/delete/new-chat/logout buttons (each halting
with a rerun), active-chat reconciliation, memory load, message display,
and the chat-input handler. -/
def stageAuth (inp : RunInput) (st : ScriptSt) : ScriptSt :=
  if st.halted.isSome then st else
  if ¬ st.session.authenticated then st else
  let u := st.session.username.getD ""
  let chat_ids := (get_all_chat_ids_for_user st.store u).map Prod.fst
  let st0 := { st with effects := st.effects ++ [Effect.getAllChats u] }
  if chat_ids.isEmpty then
    -- lines 114-119: no chats: seed a fresh chat with a greeting and rerun
    let new_id := u ++ "_" ++ inp.freshSuffix
    { st0 with
      session := { st0.session with chat_id := some (some new_id) }
      store := (insert_message st0.store u new_id "assistant" (greetingNoChats u)).getD st0.store
      effects := st0.effects ++ [Effect.insertMessage u new_id "assistant" (greetingNoChats u)]
      halted := some .rerun }
  else
  let selected := selectedChat st.store u inp.selectedChatIdx
  -- lines 126-129: Save Name
  let st1 :=
    if inp.saveNameBtn then
      match update_chat_name st0.store selected inp.renameValue with
      | some s' =>
        { st0 with
          store := s'
          effects := st0.effects ++ [Effect.updateChatName selected inp.renameValue]
          halted := some .rerun }
      | none =>
        { st0 with effects := st0.effects ++ [Effect.updateChatName selected inp.renameValue] }
    else st0
  if st1.halted.isSome then st1 else
  -- lines 131-135: Delete Chat
  let st2 :=
    if inp.deleteBtn then
      match delete_chat st1.store selected with
      | some s' =>
        { st1 with
          store := s'
          session := { st1.session with chat_id := some none }
          effects := st1.effects ++ [Effect.deleteChat selected]
          halted := some .rerun }
      | none =>
        { st1 with effects := st1.effects ++ [Effect.deleteChat selected] }
    else st1
  if st2.halted.isSome then st2 else
  -- lines 138-142: New Chat (insert result unchecked by the script)
  if inp.newChatBtn then
    let new_id := u ++ "_" ++ inp.freshSuffix
    { st2 with
      session := { st2.session with chat_id := some (some new_id) }
      store := (insert_message st2.store u new_id "assistant" (greetingNewChat u)).getD st2.store
      effects := st2.effects ++ [Effect.insertMessage u new_id "assistant" (greetingNewChat u)]
      halted := some .rerun }
  else
  -- lines 145-147: Logout clears all session keys and reruns
  if inp.logoutBtn then
    { st2 with session := initSession, halted := some .rerun }
  else
  -- lines 150-154: reconcile session chat_id with the sidebar selection
  let st3 :=
    match st2.session.chat_id with
    | none =>
      let newCid := if selected ≠ "" then selected else u ++ "_" ++ inp.freshSuffix
      { st2 with session := { st2.session with chat_id := some (some newCid) } }
    | some cur =>
      if selected ≠ "" ∧ some selected ≠ cur then
        { st2 with
          session := { st2.session with chat_id := some (some selected) }
          halted := some .rerun }
      else st2
  if st3.halted.isSome then st3 else
  let cid := (st3.session.chat_id.getD none).getD ""
  -- lines 164-169: load agent memory (last 3); lines 232-233: display (last 10)
  let context := get_langchain_messages st3.store cid
  let displayed := get_chat_history st3.store cid 10
  let st4 := { st3 with
    effects := st3.effects ++ [Effect.getChatHistory cid 3, Effect.getChatHistory cid 10]
    render := some ⟨cid, context, displayed⟩ }
  -- lines 238-247: chat input: persist user message, invoke agent, persist reply
  match inp.chatInput with
  | none => st4
  | some q =>
    let s1 := (insert_message st4.store u cid "user" q).getD st4.store
    let s2 := (insert_message s1 u cid "assistant" inp.agentResponse).getD s1
    { st4 with
      store := s2
      effects := st4.effects ++
        [Effect.insertMessage u cid "user" q, Effect.agentInvoke q,
         Effect.insertMessage u cid "assistant" inp.agentResponse] }

/-- One full script execution of `app.py`, from the availability gate to
the chat-input handler. -/
def run (appStatus : String) (sess : SessionState) (store : Store) (inp : RunInput) : ScriptSt :=
  stageAuth inp (stageRegister inp (stageLogin inp
    (stageGate appStatus
      { session := sess, store := store, effects := [], errors := [],
        halted := none, render := none })))

/-- The keyword arguments the script passes to
`AgentExecutor.from_agent_and_tools` (`app.py` lines 217-227). -/
structure AgentExecutorConfig where
  max_iterations : Nat
  max_execution_time : Nat
  early_stopping_method : String
  handle_parsing_errors : Bool
  verbose : Bool
deriving Repr, DecidableEq

/-- The executor configuration built at `app.py` lines 217-227. -/
def agent_executor_config : AgentExecutorConfig :=
  { max_iterations := 3
    max_execution_time := 30
    early_stopping_method := "force"
    handle_parsing_errors := true
    verbose := true }

/-- One outcome of a reasoning step of the external loop: either a final
answer or a tool action.  Modelled from the spec: the reasoning loop is an
external collaborator whose step behaviour is opaque, so we model it as an
oracle. -/
inductive AgentStep where
  | finalAnswer (a : String)
  | action (tool input : String)
deriving Repr, DecidableEq

/-- The answer produced by forced termination when the step bound is hit.
Modelled from the spec: forced termination extracts a best-effort answer
instead of retrying without bound. -/
def forcedStopAnswer : String := "Agent stopped due to iteration limit or time limit."

/-- Modelled from the spec: the external reasoning loop runs
thought/action steps, stopping at a final answer; once `fuel` steps are
exhausted the `force` early-stopping method terminates the loop with a
best-effort answer.  Returns the number of steps taken and the answer. -/
def agentLoopSteps (oracle : Nat → AgentStep) : Nat → Nat → Nat × String
  | 0, i => (i, forcedStopAnswer)
  | fuel + 1, i =>
    match oracle i with
    | .finalAnswer a => (i + 1, a)
    | .action _ _ => agentLoopSteps oracle fuel (i + 1)

/-- Modelled from the spec: one invocation of the external reasoning loop
under an executor configuration, bounded by `max_iterations`. -/
def agentInvocation (cfg : AgentExecutorConfig) (oracle : Nat → AgentStep) : Nat × String :=
  agentLoopSteps oracle cfg.max_iterations 0

section Helpers

variable {α : Type}

theorem lookup_filter_ne (l : List (String × α)) (d c : String) (h : c ≠ d) :
    (l.filter (fun p => !(p.1 == d))).lookup c = l.lookup c := by
  induction l with
  | nil => rfl
  | cons p t ih =>
    obtain ⟨k, v⟩ := p
    by_cases hp : k = d
    · have hcd : (c == k) = false := beq_eq_false_iff_ne.mpr (fun hc => h (hc.trans hp))
      have hkd : (k == d) = true := beq_iff_eq.mpr hp
      simp only [List.filter_cons, hkd, Bool.not_true, if_neg, List.lookup, hcd, ih]
      simp [ih]
    · have hkd : (k == d) = false := beq_eq_false_iff_ne.mpr hp
      simp only [List.filter_cons, hkd, Bool.not_false, if_pos, List.lookup]
      by_cases hck : c = k
      · simp [beq_iff_eq.mpr hck]
      · simp [beq_eq_false_iff_ne.mpr hck, ih]

theorem lookup_filter_self (l : List (String × α)) (d : String) :
    (l.filter (fun p => !(p.1 == d))).lookup d = none := by
  induction l with
  | nil => rfl
  | cons p t ih =>
    obtain ⟨k, v⟩ := p
    by_cases hp : k = d
    · simp only [List.filter_cons, beq_iff_eq.mpr hp, Bool.not_true]
      simpa using ih
    · have hkd : (k == d) = false := beq_eq_false_iff_ne.mpr hp
      have hdk : (d == k) = false := beq_eq_false_iff_ne.mpr (fun hc => hp hc.symm)
      simp only [List.filter_cons, hkd, Bool.not_false, if_pos, List.lookup, hdk]
      simpa using ih

theorem lookup_append_fresh (l : List (String × α)) (c : String) (x : α)
    (h : l.lookup c = none) : (l ++ [(c, x)]).lookup c = some x := by
  induction l with
  | nil => simp [List.lookup]
  | cons p t ih =>
    obtain ⟨k, v⟩ := p
    by_cases hck : c = k
    · exfalso
      simp only [List.lookup, beq_iff_eq.mpr hck] at h
      exact Option.noConfusion h
    · have hcd : (c == k) = false := beq_eq_false_iff_ne.mpr hck
      simp only [List.cons_append, List.lookup, hcd] at h ⊢
      exact ih h

theorem lookup_append_other (l : List (String × α)) (c c' : String) (x : α)
    (h : c' ≠ c) : (l ++ [(c, x)]).lookup c' = l.lookup c' := by
  induction l with
  | nil => simp [List.lookup, beq_eq_false_iff_ne.mpr h]
  | cons p t ih =>
    obtain ⟨k, v⟩ := p
    by_cases hck : c' = k
    · simp [List.lookup, beq_iff_eq.mpr hck]
    · simp only [List.cons_append, List.lookup, beq_eq_false_iff_ne.mpr hck]
      exact ih

theorem lookup_map_set (l : List (String × α)) (cid c : String) (f : α → α) :
    ((l.map (fun p => if p.1 == cid then (p.1, f p.2) else p)).lookup c) =
      if c = cid then (l.lookup c).map f else l.lookup c := by
  induction l with
  | nil => by_cases h : c = cid <;> simp [List.lookup, h]
  | cons p t ih =>
    obtain ⟨k, v⟩ := p
    simp only [List.map_cons]
    by_cases hk : k = cid
    · rw [show (if ((k, v).1 == cid) = true then ((k, v).1, f (k, v).2) else (k, v)) =
        (k, f v) from by simp [beq_iff_eq.mpr hk]]
      by_cases hc : c = k
      · simp [List.lookup, beq_iff_eq.mpr hc, hc.trans hk, beq_iff_eq.mpr hk.symm]
      · simp only [List.lookup, beq_eq_false_iff_ne.mpr hc]
        exact ih
    · rw [show (if ((k, v).1 == cid) = true then ((k, v).1, f (k, v).2) else (k, v)) =
        (k, v) from by simp [beq_eq_false_iff_ne.mpr hk]]
      by_cases hc : c = k
      · have hne : ¬ c = cid := fun h => hk (hc.symm.trans h)
        simp [List.lookup, beq_iff_eq.mpr hc, hne]
      · simp only [List.lookup, beq_eq_false_iff_ne.mpr hc]
        exact ih

theorem lookup_of_mem_nodup (l : List (String × α)) (k : String) (v : α)
    (hnd : (l.map Prod.fst).Nodup) (hmem : (k, v) ∈ l) : l.lookup k = some v := by
  induction l with
  | nil => exact absurd hmem (List.not_mem_nil _)
  | cons p t ih =>
    obtain ⟨k', v'⟩ := p
    simp only [List.map_cons, List.nodup_cons] at hnd
    rcases List.mem_cons.mp hmem with h | h
    · obtain ⟨h1, h2⟩ := Prod.mk.injEq .. ▸ h
      cases h
      simp [List.lookup]
    · have hne : k ≠ k' := by
        intro he
        exact hnd.1 (he ▸ (List.mem_map.mpr ⟨(k, v), h, rfl⟩))
      simp only [List.lookup, beq_eq_false_iff_ne.mpr hne]
      exact ih hnd.2 h

theorem insert_message_fresh (s : Store) (u cid r m : String)
    (h : get_chat s cid = none) :
    insert_message s u cid r m =
      some { s with chats := s.chats ++ [(cid, ⟨u, none, [⟨r, m⟩]⟩)] } := by
  unfold insert_message
  rw [h]

theorem insert_message_foreign (s : Store) (u cid r m : String) (ch : Chat)
    (h : get_chat s cid = some ch) (ho : ch.owner ≠ u) :
    insert_message s u cid r m = none := by
  unfold insert_message
  rw [h]
  simp [beq_eq_false_iff_ne.mpr ho]

theorem insert_message_owned (s : Store) (u cid r m : String) (ch : Chat)
    (h : get_chat s cid = some ch) (ho : ch.owner = u) :
    insert_message s u cid r m =
      some { s with chats := setChat s.chats cid (fun c => { c with messages := c.messages ++ [⟨r, m⟩] }) } := by
  unfold insert_message
  rw [h]
  simp [beq_iff_eq.mpr ho]

theorem get_chat_setChat (s : Store) (cid c : String) (f : Chat → Chat) :
    get_chat { s with chats := setChat s.chats cid f } c =
      if c = cid then (get_chat s c).map f else get_chat s c :=
  lookup_map_set s.chats cid c f

theorem get_chat_append_fresh (s : Store) (cid : String) (ch : Chat)
    (h : get_chat s cid = none) :
    get_chat { s with chats := s.chats ++ [(cid, ch)] } cid = some ch :=
  lookup_append_fresh s.chats cid ch h

theorem get_chat_append_other (s : Store) (cid c : String) (ch : Chat) (h : c ≠ cid) :
    get_chat { s with chats := s.chats ++ [(cid, ch)] } c = get_chat s c :=
  lookup_append_other s.chats cid c ch h

theorem get_all_append (s : Store) (cid u : String) (dn : Option String) (msgs : List Msg) :
    get_all_chat_ids_for_user { s with chats := s.chats ++ [(cid, ⟨u, dn, msgs⟩)] } u =
      get_all_chat_ids_for_user s u ++ [(cid, dn)] := by
  simp [get_all_chat_ids_for_user, List.filter_append]

theorem delete_chat_some (s : Store) (d : String) (ch : Chat)
    (h : get_chat s d = some ch) :
    delete_chat s d =
      some { s with chats := s.chats.filter (fun p => !(p.1 == d)) } := by
  unfold delete_chat
  rw [h]

theorem get_chat_filter_key (s : Store) (d c : String) :
    get_chat { s with chats := s.chats.filter (fun p => !(p.1 == d)) } c =
      if c = d then none else get_chat s c := by
  by_cases h : c = d
  · subst h
    simp [get_chat, lookup_filter_self]
  · simp [get_chat, h, lookup_filter_ne s.chats d c h]

theorem filter_key_owner_comm (l : List (String × Chat)) (d u : String) :
    ((l.filter (fun p => !(p.1 == d))).filter
        (fun p => p.2.owner == u)).map (fun p => (p.1, p.2.display_name)) =
      ((l.filter (fun p => p.2.owner == u)).map
        (fun p => (p.1, p.2.display_name))).filter (fun p => !(p.1 == d)) := by
  induction l with
  | nil => rfl
  | cons p t ih =>
    by_cases hk : p.1 = d <;> by_cases ho : p.2.owner = u <;>
      simp [List.filter_cons, beq_iff_eq, hk, ho, ih, -List.filter_filter]

theorem get_all_filter_key (s : Store) (d u : String) :
    get_all_chat_ids_for_user
        { s with chats := s.chats.filter (fun p => !(p.1 == d)) } u =
      (get_all_chat_ids_for_user s u).filter (fun p => !(p.1 == d)) := by
  unfold get_all_chat_ids_for_user
  exact filter_key_owner_comm s.chats d u

theorem mem_user_chats_owned (s : Store) (u c : String)
    (hnd : (s.chats.map Prod.fst).Nodup)
    (hmem : c ∈ (get_all_chat_ids_for_user s u).map Prod.fst) :
    ∃ ch, get_chat s c = some ch ∧ ch.owner = u := by
  unfold get_all_chat_ids_for_user at hmem
  simp only [List.map_map, List.mem_map, Function.comp] at hmem
  obtain ⟨p, hp, hfst⟩ := hmem
  have hin := List.mem_filter.mp hp
  refine ⟨p.2, ?_, beq_iff_eq.mp hin.2⟩
  have := lookup_of_mem_nodup s.chats p.1 p.2 hnd (by simpa using hin.1)
  simpa [get_chat, hfst] using hfst ▸ this

theorem selectedChat_mem (store : Store) (u : String) (i : Nat)
    (h : (get_all_chat_ids_for_user store u).map Prod.fst ≠ []) :
    selectedChat store u i ∈ (get_all_chat_ids_for_user store u).map Prod.fst := by
  unfold selectedChat
  dsimp only
  have hlen : 0 < ((get_all_chat_ids_for_user store u).map Prod.fst).length :=
    List.length_pos.mpr h
  by_cases hi : i < ((get_all_chat_ids_for_user store u).map Prod.fst).length
  · rw [if_pos hi, List.getD_eq_getElem _ "" hi]
    exact List.getElem_mem hi
  · rw [if_neg hi, List.getD_eq_getElem _ "" hlen]
    exact List.getElem_mem hlen

theorem selectedChat_cons_zero (store : Store) (u c : String) (rest : List String)
    (h : (get_all_chat_ids_for_user store u).map Prod.fst = c :: rest) :
    selectedChat store u 0 = c := by
  unfold selectedChat
  rw [h]
  simp

theorem mem_keys_of_mem_user_chats (s : Store) (u x : String)
    (h : x ∈ (get_all_chat_ids_for_user s u).map Prod.fst) :
    x ∈ s.chats.map Prod.fst := by
  unfold get_all_chat_ids_for_user at h
  simp only [List.map_map, List.mem_map, Function.comp] at h ⊢
  obtain ⟨p, hp, hfst⟩ := h
  exact ⟨p, (List.mem_filter.mp hp).1, hfst⟩

theorem user_chat_ne_empty (s : Store) (u x : String)
    (hne : ∀ p ∈ s.chats, p.1 ≠ "")
    (h : x ∈ (get_all_chat_ids_for_user s u).map Prod.fst) : x ≠ "" := by
  have hk := mem_keys_of_mem_user_chats s u x h
  simp only [List.mem_map] at hk
  obtain ⟨p, hp, hfst⟩ := hk
  exact hfst ▸ hne p hp

theorem owner_of_user_chat (s : Store) (u x : String)
    (hnd : (s.chats.map Prod.fst).Nodup)
    (h : x ∈ (get_all_chat_ids_for_user s u).map Prod.fst) :
    ∀ ch, get_chat s x = some ch → ch.owner = u := by
  obtain ⟨ch0, hch0, how⟩ := mem_user_chats_owned s u x hnd h
  intro ch hch
  rw [hch0] at hch
  cases hch
  exact how

theorem stageGate_on (appStatus : String) (st : ScriptSt)
    (h : pyUpper (pyStrip appStatus) = "ON") : stageGate appStatus st = st := by
  simp [stageGate, h]

theorem stageLogin_of_halted (inp : RunInput) (st : ScriptSt) (x : Halt)
    (h : st.halted = some x) : stageLogin inp st = st := by
  simp [stageLogin, h]

theorem stageRegister_of_halted (inp : RunInput) (st : ScriptSt) (x : Halt)
    (h : st.halted = some x) : stageRegister inp st = st := by
  simp [stageRegister, h]

theorem stageAuth_of_halted (inp : RunInput) (st : ScriptSt) (x : Halt)
    (h : st.halted = some x) : stageAuth inp st = st := by
  simp [stageAuth, h]

theorem stageLogin_of_auth (inp : RunInput) (st : ScriptSt)
    (h : st.session.authenticated = true) : stageLogin inp st = st := by
  simp [stageLogin, h]

theorem stageRegister_of_auth (inp : RunInput) (st : ScriptSt)
    (h : st.session.authenticated = true) : stageRegister inp st = st := by
  simp [stageRegister, h]

theorem stageAuth_of_anon (inp : RunInput) (st : ScriptSt)
    (h : st.session.authenticated = false) : stageAuth inp st = st := by
  simp [stageAuth, h]

theorem stageLogin_of_no_btn (inp : RunInput) (st : ScriptSt)
    (h : inp.loginBtn = false) : stageLogin inp st = st := by
  simp [stageLogin, h]

theorem stageRegister_of_no_btn (inp : RunInput) (st : ScriptSt)
    (h : inp.registerBtn = false) : stageRegister inp st = st := by
  simp [stageRegister, h]

theorem stageRegister_session (inp : RunInput) (st : ScriptSt) :
    (stageRegister inp st).session = st.session := by
  unfold stageRegister
  repeat' split
  all_goals rfl

theorem stageRegister_halted (inp : RunInput) (st : ScriptSt) :
    (stageRegister inp st).halted = st.halted := by
  unfold stageRegister
  repeat' split
  all_goals rfl

theorem stageRegister_render (inp : RunInput) (st : ScriptSt) :
    (stageRegister inp st).render = st.render := by
  unfold stageRegister
  repeat' split
  all_goals rfl

theorem stageRegister_errors_mem (inp : RunInput) (st : ScriptSt) (e : String)
    (h : e ∈ st.errors) : e ∈ (stageRegister inp st).errors := by
  unfold stageRegister
  repeat' split
  all_goals simp [h, List.mem_append]

theorem run_of_gate_off (appStatus : String) (sess : SessionState) (store : Store)
    (inp : RunInput) (h : pyUpper (pyStrip appStatus) ≠ "ON") :
    run appStatus sess store inp =
      { session := sess, store := store, effects := [], errors := [unavailableMsg],
        halted := some .stop, render := none } := by
  have h1 : stageGate appStatus
      { session := sess, store := store, effects := [], errors := [],
        halted := none, render := none } =
      { session := sess, store := store, effects := [], errors := [unavailableMsg],
        halted := some .stop, render := none } := by
    simp [stageGate, h]
  rw [run, h1, stageLogin_of_halted _ _ .stop rfl, stageRegister_of_halted _ _ .stop rfl,
    stageAuth_of_halted _ _ .stop rfl]

end Helpers

/-- C3: when the availability switch is off (`APP_STATUS.strip().upper()`
differs from `"ON"`), a script run — whatever UI event triggered it —
performs no login, registration, chat read or chat write: it issues no
store or agent effect, leaves the session controller state and the store
untouched, renders nothing, and stops after displaying the fixed
unavailable message. -/
theorem availability_off_halts_without_effects
    (appStatus : String) (sess : SessionState) (store : Store) (inp : RunInput)
    (h : pyUpper (pyStrip appStatus) ≠ "ON") :
    run appStatus sess store inp =
      { session := sess, store := store, effects := [], errors := [unavailableMsg],
        halted := some .stop, render := none } :=
  run_of_gate_off appStatus sess store inp h

/-- Witness for C3 at `APP_STATUS = "off"`. -/
theorem availability_off_halts_without_effects_witness :
    pyUpper (pyStrip "off") ≠ "ON" ∧
    run "off" initSession ⟨[], []⟩ (idleInput "s") =
      { session := initSession, store := ⟨[], []⟩, effects := [],
        errors := [unavailableMsg], halted := some .stop, render := none } :=
  ⟨by decide,
   availability_off_halts_without_effects "off" initSession ⟨[], []⟩ (idleInput "s")
     (by decide)⟩

theorem agentLoopSteps_le (oracle : Nat → AgentStep) :
    ∀ fuel i, (agentLoopSteps oracle fuel i).1 ≤ i + fuel := by
  intro fuel
  induction fuel with
  | zero => intro i; simp [agentLoopSteps]
  | succ n ih =>
    intro i
    unfold agentLoopSteps
    cases oracle i with
    | finalAnswer a => simp
    | action t inpt => exact le_trans (ih (i + 1)) (by omega)

/-- C8: the executor wrapping the external reasoning loop is configured
with hard bounds — at most 3 reasoning/tool-use steps
(`max_iterations=3`), at most 30 seconds wall clock
(`max_execution_time=30`) — and with forced termination
(`early_stopping_method="force"`, `handle_parsing_errors=True`) rather
than unbounded retry; in the modelled loop semantics, no invocation ever
takes more steps than the configured iteration bound. -/
theorem agent_executor_bounds :
    agent_executor_config.max_iterations = 3 ∧
    agent_executor_config.max_execution_time = 30 ∧
    agent_executor_config.early_stopping_method = "force" ∧
    agent_executor_config.handle_parsing_errors = true ∧
    ∀ oracle : Nat → AgentStep,
      (agentInvocation agent_executor_config oracle).1 ≤
        agent_executor_config.max_iterations :=
  ⟨rfl, rfl, rfl, rfl, fun oracle => by
    simpa using agentLoopSteps_le oracle agent_executor_config.max_iterations 0⟩

/-- C6: a registration attempt — successful or not — leaves the whole
session-controller state (authenticated, username, name, chat_id)
unchanged: registration never auto-authenticates. -/
theorem register_never_authenticates
    (appStatus : String) (sess : SessionState) (store : Store) (inp : RunInput)
    (hAnon : sess.authenticated = false)
    (hNoLogin : inp.loginBtn = false)
    (hReg : inp.registerBtn = true) :
    (run appStatus sess store inp).session = sess := by
  by_cases hOn : pyUpper (pyStrip appStatus) = "ON"
  · rw [run, stageGate_on _ _ hOn, stageLogin_of_no_btn _ _ hNoLogin]
    rw [stageAuth_of_anon _ _ (by rw [stageRegister_session]; exact hAnon)]
    rw [stageRegister_session]
  · rw [run_of_gate_off _ _ _ _ hOn]

/-- Witness for C6: registering user "bob" while anonymous leaves the
session unchanged. -/
theorem register_never_authenticates_witness :
    initSession.authenticated = false ∧
    (run "ON" initSession ⟨[], []⟩
      { idleInput "s" with
        registerBtn := true
        regUsername := "bob"
        regName := "Bob"
        regEmail := "b@x"
        regPassword := "pw"
        regConfirm := "pw" }).session = initSession :=
  ⟨rfl, register_never_authenticates "ON" initSession ⟨[], []⟩ _ rfl rfl rfl⟩

/-- C10: `create_user` is invoked only when the registration form's
password and confirm-password fields are equal and no user with the chosen
username exists; if either guard fails, an error is shown, no `createUser`
call reaches the store, and the credential store is unchanged; when both
guards pass, `create_user` is invoked and appends exactly the new user. -/
theorem create_user_guarded
    (appStatus : String) (sess : SessionState) (store : Store) (inp : RunInput)
    (hOn : pyUpper (pyStrip appStatus) = "ON")
    (hAnon : sess.authenticated = false)
    (hNoLogin : inp.loginBtn = false)
    (hReg : inp.registerBtn = true) :
    (inp.regPassword ≠ inp.regConfirm →
      (run appStatus sess store inp).store = store ∧
      "Passwords do not match." ∈ (run appStatus sess store inp).errors ∧
      ∀ u n e p, Effect.createUser u n e p ∉ (run appStatus sess store inp).effects) ∧
    (inp.regPassword = inp.regConfirm →
      (get_user_by_username store inp.regUsername).isSome →
      (run appStatus sess store inp).store = store ∧
      "Username already exists." ∈ (run appStatus sess store inp).errors ∧
      ∀ u n e p, Effect.createUser u n e p ∉ (run appStatus sess store inp).effects) ∧
    (inp.regPassword = inp.regConfirm →
      get_user_by_username store inp.regUsername = none →
      Effect.createUser inp.regUsername inp.regName inp.regEmail inp.regPassword ∈
        (run appStatus sess store inp).effects ∧
      (run appStatus sess store inp).store =
        { store with users := store.users ++
            [⟨inp.regUsername, inp.regName, inp.regEmail, hashPassword inp.regPassword⟩] }) := by
  have hrun : run appStatus sess store inp = stageRegister inp
      { session := sess, store := store, effects := [], errors := [],
        halted := none, render := none } := by
    rw [run, stageGate_on _ _ hOn, stageLogin_of_no_btn _ _ hNoLogin,
      stageAuth_of_anon _ _ (by rw [stageRegister_session]; exact hAnon)]
  rw [hrun]
  refine ⟨?_, ?_, ?_⟩
  · intro hmm
    simp [stageRegister, hAnon, hReg, hmm]
  · intro hpw htaken
    simp [stageRegister, hAnon, hReg, hpw, htaken]
  · intro hpw hfree
    have hcu : create_user store inp.regUsername inp.regName inp.regEmail inp.regConfirm =
        some { store with users := store.users ++
          [⟨inp.regUsername, inp.regName, inp.regEmail, hashPassword inp.regConfirm⟩] } := by
      simp [create_user, hfree]
    simp [stageRegister, hAnon, hReg, hpw, hfree, hcu]

/-- Witness for C10: registering "bob" with mismatched passwords leaves the
credential store unchanged. -/
theorem create_user_guarded_witness :
    ("pw" : String) ≠ "qw" ∧
    (run "ON" initSession ⟨[], []⟩
      { idleInput "s" with
        registerBtn := true
        regUsername := "bob"
        regPassword := "pw"
        regConfirm := "qw" }).store = ⟨[], []⟩ :=
  ⟨by decide,
   ((create_user_guarded "ON" initSession ⟨[], []⟩
      { idleInput "s" with
        registerBtn := true
        regUsername := "bob"
        regPassword := "pw"
        regConfirm := "qw" } (by decide) rfl rfl rfl).1 (by decide)).1⟩

/-- C1: a login attempt authenticates the session iff the Credential Store
verifies the submitted (username, password) pair; on success the session's
username and name are set from the stored user; on failure the session is
unchanged (stays Anonymous) and an error message is surfaced. -/
theorem login_authenticates_iff_verified
    (appStatus : String) (sess : SessionState) (store : Store) (inp : RunInput)
    (hOn : pyUpper (pyStrip appStatus) = "ON")
    (hAnon : sess.authenticated = false)
    (hBtn : inp.loginBtn = true) :
    ((run appStatus sess store inp).session.authenticated = true ↔
        verify_user_credentials store inp.usernameInput inp.passwordInput = true) ∧
    (verify_user_credentials store inp.usernameInput inp.passwordInput = true →
      ∃ user, get_user_by_username store inp.usernameInput = some user ∧
        (run appStatus sess store inp).session =
          { authenticated := true
            username := some user.username
            name := some user.full_name
            chat_id := some (some (user.username ++ "_" ++ inp.freshSuffix)) }) ∧
    (verify_user_credentials store inp.usernameInput inp.passwordInput = false →
      (run appStatus sess store inp).session = sess ∧
      "Incorrect username or password." ∈ (run appStatus sess store inp).errors) := by
  rw [run, stageGate_on _ _ hOn]
  by_cases hv : verify_user_credentials store inp.usernameInput inp.passwordInput = true
  · have huser : ∃ user, get_user_by_username store inp.usernameInput = some user := by
      unfold verify_user_credentials at hv
      cases hg : get_user_by_username store inp.usernameInput with
      | none => rw [hg] at hv; exact absurd hv (by simp)
      | some user => exact ⟨user, rfl⟩
    obtain ⟨user, hu⟩ := huser
    have hL : stageLogin inp
        { session := sess, store := store, effects := [], errors := [],
          halted := none, render := none } =
        { session :=
            { authenticated := true
              username := some user.username
              name := some user.full_name
              chat_id := some (some (user.username ++ "_" ++ inp.freshSuffix)) }
          store := store
          effects := [Effect.verifyCredentials inp.usernameInput inp.passwordInput,
            Effect.getUser inp.usernameInput]
          errors := []
          halted := some .rerun
          render := none } := by
      simp [stageLogin, hAnon, hBtn, hv, hu]
    rw [hL, stageRegister_of_halted _ _ .rerun rfl, stageAuth_of_halted _ _ .rerun rfl]
    exact ⟨by simp [hv], fun _ => ⟨user, hu, rfl⟩, fun hf => absurd hv (by simp [hf])⟩
  · have hv' : verify_user_credentials store inp.usernameInput inp.passwordInput = false := by
      simpa using hv
    have hL : stageLogin inp
        { session := sess, store := store, effects := [], errors := [],
          halted := none, render := none } =
        { session := sess
          store := store
          effects := [Effect.verifyCredentials inp.usernameInput inp.passwordInput]
          errors := ["Incorrect username or password."]
          halted := none
          render := none } := by
      simp [stageLogin, hAnon, hBtn, hv']
    rw [hL]
    rw [stageAuth_of_anon _ _ (by rw [stageRegister_session]; exact hAnon)]
    refine ⟨by simp [stageRegister_session, hAnon, hv'], fun ht => absurd ht hv, fun _ => ?_⟩
    exact ⟨by rw [stageRegister_session], stageRegister_errors_mem _ _ _ (by simp)⟩

/-- Witness for C1: "alice" logging in with her stored password
authenticates; the wrong password leaves the session anonymous. -/
theorem login_authenticates_iff_verified_witness :
    pyUpper (pyStrip "ON") = "ON" ∧ initSession.authenticated = false ∧
    ((run "ON" initSession ⟨[⟨"alice", "Alice A", "a@x", hashPassword "p1"⟩], []⟩
        { idleInput "s" with
          loginBtn := true
          usernameInput := "alice"
          passwordInput := "p1" }).session.authenticated = true ↔
      verify_user_credentials ⟨[⟨"alice", "Alice A", "a@x", hashPassword "p1"⟩], []⟩
        "alice" "p1" = true) :=
  ⟨by decide, rfl,
   (login_authenticates_iff_verified "ON" initSession
      ⟨[⟨"alice", "Alice A", "a@x", hashPassword "p1"⟩], []⟩
      { idleInput "s" with
        loginBtn := true
        usernameInput := "alice"
        passwordInput := "p1" } (by decide) rfl rfl).1⟩

theorem run_render_idle (appStatus : String) (sess : SessionState) (store : Store)
    (inp : RunInput) (u c : String) (rest : List String)
    (hOn : pyUpper (pyStrip appStatus) = "ON")
    (hAuth : sess.authenticated = true)
    (hU : sess.username = some u)
    (hList : (get_all_chat_ids_for_user store u).map Prod.fst = c :: rest)
    (hSel : selectedChat store u inp.selectedChatIdx = c)
    (hSave : inp.saveNameBtn = false) (hDel : inp.deleteBtn = false)
    (hNew : inp.newChatBtn = false) (hOut : inp.logoutBtn = false)
    (hCur : sess.chat_id = some (some c))
    (hq : inp.chatInput = none) :
    run appStatus sess store inp =
      { session := sess, store := store
        effects := [Effect.getAllChats u, Effect.getChatHistory c 3,
          Effect.getChatHistory c 10]
        errors := [], halted := none
        render := some ⟨c, get_langchain_messages store c, get_chat_history store c 10⟩ } := by
  rw [run, stageGate_on _ _ hOn, stageLogin_of_auth _ _ hAuth, stageRegister_of_auth _ _ hAuth]
  simp [stageAuth, hAuth, hU, hList, hSel, hSave, hDel, hNew, hOut, hCur, hq]

theorem run_render_input (appStatus : String) (sess : SessionState) (store : Store)
    (inp : RunInput) (u c q : String) (rest : List String)
    (hOn : pyUpper (pyStrip appStatus) = "ON")
    (hAuth : sess.authenticated = true)
    (hU : sess.username = some u)
    (hList : (get_all_chat_ids_for_user store u).map Prod.fst = c :: rest)
    (hSel : selectedChat store u inp.selectedChatIdx = c)
    (hSave : inp.saveNameBtn = false) (hDel : inp.deleteBtn = false)
    (hNew : inp.newChatBtn = false) (hOut : inp.logoutBtn = false)
    (hCur : sess.chat_id = some (some c))
    (hq : inp.chatInput = some q) :
    run appStatus sess store inp =
      { session := sess
        store := (insert_message ((insert_message store u c "user" q).getD store) u c
            "assistant" inp.agentResponse).getD
            ((insert_message store u c "user" q).getD store)
        effects := [Effect.getAllChats u, Effect.getChatHistory c 3,
          Effect.getChatHistory c 10, Effect.insertMessage u c "user" q,
          Effect.agentInvoke q, Effect.insertMessage u c "assistant" inp.agentResponse]
        errors := [], halted := none
        render := some ⟨c, get_langchain_messages store c, get_chat_history store c 10⟩ } := by
  rw [run, stageGate_on _ _ hOn, stageLogin_of_auth _ _ hAuth, stageRegister_of_auth _ _ hAuth]
  simp [stageAuth, hAuth, hU, hList, hSel, hSave, hDel, hNew, hOut, hCur, hq]

/-- C4: on a submitted user message, the run's effect trace is exactly:
read the chat list, read the bounded history, persist the user message,
invoke the agent, and only then persist the assistant message — so for the
active chat_id the user-role insert precedes the agent invocation, which
precedes the assistant-role insert; and the resulting store holds the two
messages appended in exactly that order. -/
theorem user_message_persisted_before_agent_invoke
    (appStatus : String) (sess : SessionState) (store : Store) (inp : RunInput)
    (u c q : String) (rest : List String)
    (hOn : pyUpper (pyStrip appStatus) = "ON")
    (hAuth : sess.authenticated = true)
    (hU : sess.username = some u)
    (hList : (get_all_chat_ids_for_user store u).map Prod.fst = c :: rest)
    (hSel : selectedChat store u inp.selectedChatIdx = c)
    (hSave : inp.saveNameBtn = false) (hDel : inp.deleteBtn = false)
    (hNew : inp.newChatBtn = false) (hOut : inp.logoutBtn = false)
    (hCur : sess.chat_id = some (some c))
    (hq : inp.chatInput = some q) :
    (run appStatus sess store inp).effects =
      [Effect.getAllChats u, Effect.getChatHistory c 3, Effect.getChatHistory c 10,
       Effect.insertMessage u c "user" q, Effect.agentInvoke q,
       Effect.insertMessage u c "assistant" inp.agentResponse] ∧
    (∀ ch, get_chat store c = some ch → ch.owner = u →
      get_chat (run appStatus sess store inp).store c =
        some { ch with messages :=
          ch.messages ++ [⟨"user", q⟩, ⟨"assistant", inp.agentResponse⟩] }) := by
  have hr := run_render_input appStatus sess store inp u c q rest hOn hAuth hU hList hSel
    hSave hDel hNew hOut hCur hq
  rw [hr]
  refine ⟨rfl, fun ch hch ho => ?_⟩
  have h1 := insert_message_owned store u c "user" q ch hch ho
  have hch1 : get_chat ((insert_message store u c "user" q).getD store) c =
      some { ch with messages := ch.messages ++ [⟨"user", q⟩] } := by
    rw [h1, Option.getD_some, get_chat_setChat, if_pos rfl, hch]
    rfl
  have h2 := insert_message_owned ((insert_message store u c "user" q).getD store) u c
    "assistant" inp.agentResponse { ch with messages := ch.messages ++ [⟨"user", q⟩] }
    hch1 ho
  rw [h2, Option.getD_some, get_chat_setChat, if_pos rfl, hch1]
  simp

/-- Witness for C4: "alice" sends "hi" in her chat; the trace is exactly
list-read, two bounded history reads, user insert, agent invoke, assistant
insert, and the store ends with both messages appended. -/
theorem user_message_persisted_before_agent_invoke_witness :
    (run "ON"
      { authenticated := true, username := some "alice", name := some "Alice A"
        chat_id := some (some "alice_11112222") }
      ⟨[], [("alice_11112222", ⟨"alice", none, [⟨"assistant", "hello"⟩]⟩)]⟩
      { idleInput "s" with
        chatInput := some "hi"
        agentResponse := "resp" }).effects =
      [Effect.getAllChats "alice", Effect.getChatHistory "alice_11112222" 3,
       Effect.getChatHistory "alice_11112222" 10,
       Effect.insertMessage "alice" "alice_11112222" "user" "hi",
       Effect.agentInvoke "hi",
       Effect.insertMessage "alice" "alice_11112222" "assistant" "resp"] :=
  (user_message_persisted_before_agent_invoke "ON"
    { authenticated := true, username := some "alice", name := some "Alice A"
      chat_id := some (some "alice_11112222") }
    ⟨[], [("alice_11112222", ⟨"alice", none, [⟨"assistant", "hello"⟩]⟩)]⟩
    { idleInput "s" with
      chatInput := some "hi"
      agentResponse := "resp" }
    "alice" "alice_11112222" "hi" [] (by decide) rfl rfl (by decide) rfl rfl rfl rfl rfl
    rfl rfl).1

theorem lastN_length_le (n : Nat) (xs : List α) : (lastN n xs).length ≤ n := by
  simp only [lastN, List.length_drop]
  omega

theorem context_window_facts (store : Store) (c : String) :
    (get_langchain_messages store c).length ≤ 3 ∧
    (get_chat_history store c 10).length ≤ 10 ∧
    (∀ ch, get_chat store c = some ch →
      get_langchain_messages store c = (lastN 3 ch.messages).map (fun m =>
        if m.role == "user" then LCMessage.human m.content
        else LCMessage.ai m.content) ∧
      get_chat_history store c 10 = (lastN 10 ch.messages).map
        (fun m => (m.role, m.content))) := by
  refine ⟨?_, ?_, ?_⟩
  · unfold get_langchain_messages get_chat_history
    cases get_chat store c with
    | none => simp
    | some ch => simpa using lastN_length_le 3 ch.messages
  · unfold get_chat_history
    cases get_chat store c with
    | none => simp
    | some ch => simpa using lastN_length_le 10 ch.messages
  · intro ch hch
    constructor
    · unfold get_langchain_messages get_chat_history
      rw [hch]
      simp [List.map_map, Function.comp]
    · unfold get_chat_history
      rw [hch]

/-- C9: whenever the message view renders, the reasoning context loaded
into agent memory is exactly the last 3 messages of the active chat
(`get_chat_history` with n=3, human/ai-tagged) and the display is exactly
the last 10 (`get_chat_history` with n=10), both in chronological order as
a trailing window of the chat's message list; the context never exceeds 3
entries and the display never exceeds 10, so the full history is loaded
for neither purpose. -/
theorem bounded_context_and_display
    (appStatus : String) (sess : SessionState) (store : Store) (inp : RunInput)
    (u c : String) (rest : List String)
    (hOn : pyUpper (pyStrip appStatus) = "ON")
    (hAuth : sess.authenticated = true)
    (hU : sess.username = some u)
    (hList : (get_all_chat_ids_for_user store u).map Prod.fst = c :: rest)
    (hSel : selectedChat store u inp.selectedChatIdx = c)
    (hSave : inp.saveNameBtn = false) (hDel : inp.deleteBtn = false)
    (hNew : inp.newChatBtn = false) (hOut : inp.logoutBtn = false)
    (hCur : sess.chat_id = some (some c)) :
    ∃ ri, (run appStatus sess store inp).render = some ri ∧
      ri.chat_id = c ∧
      ri.context = get_langchain_messages store c ∧
      ri.displayed = get_chat_history store c 10 ∧
      ri.context.length ≤ 3 ∧
      ri.displayed.length ≤ 10 ∧
      (∀ ch, get_chat store c = some ch →
        ri.context = (lastN 3 ch.messages).map (fun m =>
          if m.role == "user" then LCMessage.human m.content
          else LCMessage.ai m.content) ∧
        ri.displayed = (lastN 10 ch.messages).map (fun m => (m.role, m.content))) := by
  obtain ⟨hlen3, hlen10, hwin⟩ := context_window_facts store c
  cases hq : inp.chatInput with
  | none =>
    rw [run_render_idle appStatus sess store inp u c rest hOn hAuth hU hList hSel
      hSave hDel hNew hOut hCur hq]
    exact ⟨_, rfl, rfl, rfl, rfl, hlen3, hlen10, hwin⟩
  | some q =>
    rw [run_render_input appStatus sess store inp u c q rest hOn hAuth hU hList hSel
      hSave hDel hNew hOut hCur hq]
    exact ⟨_, rfl, rfl, rfl, rfl, hlen3, hlen10, hwin⟩

/-- Witness for C9: in "alice"'s chat with 12 messages, the context is the
last 3 and the display the last 10, in order. -/
theorem bounded_context_and_display_witness :
    ∃ ri, (run "ON"
      { authenticated := true, username := some "alice", name := some "Alice A"
        chat_id := some (some "alice_11112222") }
      ⟨[], [("alice_11112222", ⟨"alice", none,
        (List.range 12).map (fun i => ⟨"user", toString i⟩)⟩)]⟩
      (idleInput "s")).render = some ri ∧
      ri.context = [LCMessage.human "9", LCMessage.human "10", LCMessage.human "11"] ∧
      ri.displayed.length = 10 := by
  obtain ⟨ri, h1, _, h3, h4, _, _, _⟩ := bounded_context_and_display "ON"
    { authenticated := true, username := some "alice", name := some "Alice A"
      chat_id := some (some "alice_11112222") }
    ⟨[], [("alice_11112222", ⟨"alice", none,
      (List.range 12).map (fun i => ⟨"user", toString i⟩)⟩)]⟩
    (idleInput "s") "alice" "alice_11112222" [] (by decide) rfl rfl (by decide) rfl
    rfl rfl rfl rfl rfl
  refine ⟨ri, h1, ?_, ?_⟩
  · rw [h3]
    decide
  · rw [h4]
    decide

/-- C5: (first part) an authenticated session whose user has no chats
auto-creates one on the next run — afterwards the user has exactly one
chat, it is the active chat, and it contains exactly one assistant
greeting message, with the run halting (rerun) before any user input is
processed; (second part) the New Chat action likewise creates a chat whose
entire content is one assistant greeting. -/
theorem autocreated_chat_single_greeting :
    (∀ (appStatus : String) (sess : SessionState) (store : Store) (inp : RunInput)
        (u : String),
      pyUpper (pyStrip appStatus) = "ON" →
      sess.authenticated = true →
      sess.username = some u →
      get_all_chat_ids_for_user store u = [] →
      get_chat store (u ++ "_" ++ inp.freshSuffix) = none →
      (run appStatus sess store inp).session.chat_id =
        some (some (u ++ "_" ++ inp.freshSuffix)) ∧
      get_all_chat_ids_for_user (run appStatus sess store inp).store u =
        [(u ++ "_" ++ inp.freshSuffix, none)] ∧
      get_chat (run appStatus sess store inp).store (u ++ "_" ++ inp.freshSuffix) =
        some ⟨u, none, [⟨"assistant", greetingNoChats u⟩]⟩ ∧
      (run appStatus sess store inp).halted = some .rerun) ∧
    (∀ (appStatus : String) (sess : SessionState) (store : Store) (inp : RunInput)
        (u c : String) (rest : List String),
      pyUpper (pyStrip appStatus) = "ON" →
      sess.authenticated = true →
      sess.username = some u →
      (get_all_chat_ids_for_user store u).map Prod.fst = c :: rest →
      inp.saveNameBtn = false →
      inp.deleteBtn = false →
      inp.newChatBtn = true →
      get_chat store (u ++ "_" ++ inp.freshSuffix) = none →
      (run appStatus sess store inp).session.chat_id =
        some (some (u ++ "_" ++ inp.freshSuffix)) ∧
      get_chat (run appStatus sess store inp).store (u ++ "_" ++ inp.freshSuffix) =
        some ⟨u, none, [⟨"assistant", greetingNewChat u⟩]⟩ ∧
      (run appStatus sess store inp).halted = some .rerun) := by
  constructor
  · intro appStatus sess store inp u hOn hAuth hU hEmpty hFresh
    have hins := insert_message_fresh store u (u ++ "_" ++ inp.freshSuffix) "assistant"
      (greetingNoChats u) hFresh
    have hmap : (get_all_chat_ids_for_user store u).map Prod.fst = [] := by
      rw [hEmpty]
      rfl
    rw [run, stageGate_on _ _ hOn, stageLogin_of_auth _ _ hAuth,
      stageRegister_of_auth _ _ hAuth]
    have hrun : stageAuth inp
        { session := sess, store := store, effects := [], errors := [],
          halted := none, render := none } =
        { session := { sess with chat_id := some (some (u ++ "_" ++ inp.freshSuffix)) }
          store := { store with chats := store.chats ++
            [(u ++ "_" ++ inp.freshSuffix,
              ⟨u, none, [⟨"assistant", greetingNoChats u⟩]⟩)] }
          effects := [Effect.getAllChats u,
            Effect.insertMessage u (u ++ "_" ++ inp.freshSuffix) "assistant"
              (greetingNoChats u)]
          errors := [], halted := some .rerun, render := none } := by
      simp [stageAuth, hAuth, hU, hmap, hins]
    rw [hrun]
    refine ⟨rfl, ?_, ?_, rfl⟩
    · rw [get_all_append, hEmpty]
      rfl
    · exact get_chat_append_fresh store _ _ hFresh
  · intro appStatus sess store inp u c rest hOn hAuth hU hList hSave hDel hNew hFresh
    have hins := insert_message_fresh store u (u ++ "_" ++ inp.freshSuffix) "assistant"
      (greetingNewChat u) hFresh
    rw [run, stageGate_on _ _ hOn, stageLogin_of_auth _ _ hAuth,
      stageRegister_of_auth _ _ hAuth]
    have hrun : stageAuth inp
        { session := sess, store := store, effects := [], errors := [],
          halted := none, render := none } =
        { session := { sess with chat_id := some (some (u ++ "_" ++ inp.freshSuffix)) }
          store := { store with chats := store.chats ++
            [(u ++ "_" ++ inp.freshSuffix,
              ⟨u, none, [⟨"assistant", greetingNewChat u⟩]⟩)] }
          effects := [Effect.getAllChats u,
            Effect.insertMessage u (u ++ "_" ++ inp.freshSuffix) "assistant"
              (greetingNewChat u)]
          errors := [], halted := some .rerun, render := none } := by
      simp [stageAuth, hAuth, hU, hList, hSave, hDel, hNew, hins]
    rw [hrun]
    exact ⟨rfl, get_chat_append_fresh store _ _ hFresh, rfl⟩

/-- Witness for C5: "alice", freshly authenticated with no chats, ends up
with exactly one chat holding exactly the assistant greeting; her New Chat
press likewise seeds a fresh chat with exactly one greeting. -/
theorem autocreated_chat_single_greeting_witness :
    (get_all_chat_ids_for_user
        (run "ON"
          { authenticated := true, username := some "alice", name := some "Alice A"
            chat_id := some (some "alice_00000000") }
          ⟨[⟨"alice", "Alice A", "a@x", hashPassword "p1"⟩], []⟩
          (idleInput "ab12cd34")).store "alice" =
      [("alice_ab12cd34", none)] ∧
     get_chat
        (run "ON"
          { authenticated := true, username := some "alice", name := some "Alice A"
            chat_id := some (some "alice_00000000") }
          ⟨[⟨"alice", "Alice A", "a@x", hashPassword "p1"⟩], []⟩
          (idleInput "ab12cd34")).store "alice_ab12cd34" =
      some ⟨"alice", none, [⟨"assistant", greetingNoChats "alice"⟩]⟩) ∧
    get_chat
        (run "ON"
          { authenticated := true, username := some "alice", name := some "Alice A"
            chat_id := some (some "alice_11112222") }
          ⟨[], [("alice_11112222", ⟨"alice", none, [⟨"assistant", "hello"⟩]⟩)]⟩
          { idleInput "ffff0000" with newChatBtn := true }).store "alice_ffff0000" =
      some ⟨"alice", none, [⟨"assistant", greetingNewChat "alice"⟩]⟩ := by
  have h1 := (autocreated_chat_single_greeting.1 "ON"
    { authenticated := true, username := some "alice", name := some "Alice A"
      chat_id := some (some "alice_00000000") }
    ⟨[⟨"alice", "Alice A", "a@x", hashPassword "p1"⟩], []⟩
    (idleInput "ab12cd34") "alice" (by decide) rfl rfl rfl rfl)
  have h2 := (autocreated_chat_single_greeting.2 "ON"
    { authenticated := true, username := some "alice", name := some "Alice A"
      chat_id := some (some "alice_11112222") }
    ⟨[], [("alice_11112222", ⟨"alice", none, [⟨"assistant", "hello"⟩]⟩)]⟩
    { idleInput "ffff0000" with newChatBtn := true }
    "alice" "alice_11112222" [] (by decide) rfl rfl (by decide) rfl rfl rfl (by decide))
  exact ⟨⟨h1.2.1, h1.2.2.1⟩, h2.2.1⟩

theorem effects_owned_closer (sel F : String) (store : Store) (u : String)
    (hOwnSel : ∀ ch, get_chat store sel = some ch → ch.owner = u)
    (hFresh : get_chat store F = none)
    (es : List Effect)
    (hes : ∀ e ∈ es, e.chatId = none ∨ e.chatId = some sel ∨ e.chatId = some F) :
    ∀ e ∈ es, ∀ c, e.chatId = some c →
      ∀ ch, get_chat store c = some ch → ch.owner = u := by
  intro e he c hc ch hch
  rcases hes e he with h | h | h
  · rw [h] at hc
    exact Option.noConfusion hc
  · rw [h] at hc
    cases hc
    exact hOwnSel ch hch
  · rw [h] at hc
    cases hc
    rw [hFresh] at hch
    exact Option.noConfusion hch

theorem stageAuth_effects_owned (inp : RunInput) (sess : SessionState) (store : Store)
    (u : String)
    (hAuth : sess.authenticated = true) (hU : sess.username = some u)
    (hnd : (store.chats.map Prod.fst).Nodup)
    (hne : ∀ p ∈ store.chats, p.1 ≠ "")
    (hFresh : get_chat store (u ++ "_" ++ inp.freshSuffix) = none) :
    ∀ e ∈ (stageAuth inp { session := sess, store := store, effects := [], errors := [], halted := none, render := none }).effects,
      ∀ c, e.chatId = some c → ∀ ch, get_chat store c = some ch → ch.owner = u := by
  by_cases hE : (get_all_chat_ids_for_user store u).map Prod.fst = []
  · have heff : (stageAuth inp { session := sess, store := store, effects := [], errors := [], halted := none, render := none }).effects =
        [Effect.getAllChats u, Effect.insertMessage u (u ++ "_" ++ inp.freshSuffix)
          "assistant" (greetingNoChats u)] := by
      simp [stageAuth, hAuth, hU, hE]
    rw [heff]
    refine effects_owned_closer (u ++ "_" ++ inp.freshSuffix) (u ++ "_" ++ inp.freshSuffix)
      store u (fun ch h => ?_) hFresh _ ?_
    · rw [hFresh] at h
      exact Option.noConfusion h
    · intro e he
      fin_cases he <;> simp [Effect.chatId]
  · have hEfalse : ((get_all_chat_ids_for_user store u).map Prod.fst).isEmpty = false := by
      cases hq : (get_all_chat_ids_for_user store u).map Prod.fst with
      | nil => exact absurd hq hE
      | cons a l => rfl
    have hselmem := selectedChat_mem store u inp.selectedChatIdx hE
    have hOwnSel := owner_of_user_chat store u _ hnd hselmem
    have hselne : selectedChat store u inp.selectedChatIdx ≠ "" :=
      user_chat_ne_empty store u _ hne hselmem
    obtain ⟨ch0, hch0, how0⟩ := mem_user_chats_owned store u _ hnd hselmem
    by_cases hSave : inp.saveNameBtn = true
    · have hupd : update_chat_name store (selectedChat store u inp.selectedChatIdx)
          inp.renameValue = some { store with chats := setChat store.chats (selectedChat store u inp.selectedChatIdx) (fun ch => { ch with display_name := some inp.renameValue }) } := by
        unfold update_chat_name
        rw [hch0]
      have heff : (stageAuth inp { session := sess, store := store, effects := [], errors := [], halted := none, render := none }).effects =
          [Effect.getAllChats u, Effect.updateChatName
            (selectedChat store u inp.selectedChatIdx) inp.renameValue] := by
        simp [stageAuth, hAuth, hU, hEfalse, hSave, hupd]
      rw [heff]
      refine effects_owned_closer (selectedChat store u inp.selectedChatIdx)
        (u ++ "_" ++ inp.freshSuffix) store u hOwnSel hFresh _ ?_
      intro e he
      fin_cases he <;> simp [Effect.chatId]
    · by_cases hDel : inp.deleteBtn = true
      · have hdel := delete_chat_some store _ ch0 hch0
        have heff : (stageAuth inp { session := sess, store := store, effects := [], errors := [], halted := none, render := none }).effects =
            [Effect.getAllChats u, Effect.deleteChat
              (selectedChat store u inp.selectedChatIdx)] := by
          simp [stageAuth, hAuth, hU, hEfalse, hSave, hDel, hdel]
        rw [heff]
        refine effects_owned_closer (selectedChat store u inp.selectedChatIdx)
          (u ++ "_" ++ inp.freshSuffix) store u hOwnSel hFresh _ ?_
        intro e he
        fin_cases he <;> simp [Effect.chatId]
      · by_cases hNew : inp.newChatBtn = true
        · have heff : (stageAuth inp { session := sess, store := store, effects := [], errors := [], halted := none, render := none }).effects =
              [Effect.getAllChats u, Effect.insertMessage u
                (u ++ "_" ++ inp.freshSuffix) "assistant" (greetingNewChat u)] := by
            simp [stageAuth, hAuth, hU, hEfalse, hSave, hDel, hNew]
          rw [heff]
          refine effects_owned_closer (selectedChat store u inp.selectedChatIdx)
            (u ++ "_" ++ inp.freshSuffix) store u hOwnSel hFresh _ ?_
          intro e he
          fin_cases he <;> simp [Effect.chatId]
        · by_cases hOut : inp.logoutBtn = true
          · have heff : (stageAuth inp { session := sess, store := store, effects := [], errors := [], halted := none, render := none }).effects =
                [Effect.getAllChats u] := by
              simp [stageAuth, hAuth, hU, hEfalse, hSave, hDel, hNew, hOut]
            rw [heff]
            refine effects_owned_closer (selectedChat store u inp.selectedChatIdx)
              (u ++ "_" ++ inp.freshSuffix) store u hOwnSel hFresh _ ?_
            intro e he
            fin_cases he <;> simp [Effect.chatId]
          · cases hcid : sess.chat_id with
            | none =>
              cases hq : inp.chatInput with
              | none =>
                have heff : (stageAuth inp { session := sess, store := store, effects := [], errors := [], halted := none, render := none }).effects =
                    [Effect.getAllChats u,
                     Effect.getChatHistory (selectedChat store u inp.selectedChatIdx) 3,
                     Effect.getChatHistory (selectedChat store u inp.selectedChatIdx) 10] := by
                  simp [stageAuth, hAuth, hU, hEfalse, hSave, hDel, hNew, hOut, hcid,
                    hselne, hq]
                rw [heff]
                refine effects_owned_closer (selectedChat store u inp.selectedChatIdx)
                  (u ++ "_" ++ inp.freshSuffix) store u hOwnSel hFresh _ ?_
                intro e he
                fin_cases he <;> simp [Effect.chatId]
              | some q =>
                have heff : (stageAuth inp { session := sess, store := store, effects := [], errors := [], halted := none, render := none }).effects =
                    [Effect.getAllChats u,
                     Effect.getChatHistory (selectedChat store u inp.selectedChatIdx) 3,
                     Effect.getChatHistory (selectedChat store u inp.selectedChatIdx) 10,
                     Effect.insertMessage u (selectedChat store u inp.selectedChatIdx)
                       "user" q,
                     Effect.agentInvoke q,
                     Effect.insertMessage u (selectedChat store u inp.selectedChatIdx)
                       "assistant" inp.agentResponse] := by
                  simp [stageAuth, hAuth, hU, hEfalse, hSave, hDel, hNew, hOut, hcid,
                    hselne, hq]
                rw [heff]
                refine effects_owned_closer (selectedChat store u inp.selectedChatIdx)
                  (u ++ "_" ++ inp.freshSuffix) store u hOwnSel hFresh _ ?_
                intro e he
                fin_cases he <;> simp [Effect.chatId]
            | some cur =>
              by_cases hcond : (selectedChat store u inp.selectedChatIdx ≠ "" ∧
                  some (selectedChat store u inp.selectedChatIdx) ≠ cur)
              · have heff : (stageAuth inp { session := sess, store := store, effects := [], errors := [], halted := none, render := none }).effects =
                    [Effect.getAllChats u] := by
                  simp [stageAuth, hAuth, hU, hEfalse, hSave, hDel, hNew, hOut, hcid, hcond]
                rw [heff]
                refine effects_owned_closer (selectedChat store u inp.selectedChatIdx)
                  (u ++ "_" ++ inp.freshSuffix) store u hOwnSel hFresh _ ?_
                intro e he
                fin_cases he <;> simp [Effect.chatId]
              · have hcur : cur = some (selectedChat store u inp.selectedChatIdx) := by
                  rcases not_and_or.mp hcond with h1 | h2
                  · exact absurd hselne h1
                  · exact (not_not.mp h2).symm
                cases hq : inp.chatInput with
                | none =>
                  have heff : (stageAuth inp { session := sess, store := store, effects := [], errors := [], halted := none, render := none }).effects =
                      [Effect.getAllChats u,
                       Effect.getChatHistory (selectedChat store u inp.selectedChatIdx) 3,
                       Effect.getChatHistory (selectedChat store u inp.selectedChatIdx) 10] := by
                    simp [stageAuth, hAuth, hU, hEfalse, hSave, hDel, hNew, hOut, hcid,
                      hcond, hcur, hq]
                  rw [heff]
                  refine effects_owned_closer (selectedChat store u inp.selectedChatIdx)
                    (u ++ "_" ++ inp.freshSuffix) store u hOwnSel hFresh _ ?_
                  intro e he
                  fin_cases he <;> simp [Effect.chatId]
                | some q =>
                  have heff : (stageAuth inp { session := sess, store := store, effects := [], errors := [], halted := none, render := none }).effects =
                      [Effect.getAllChats u,
                       Effect.getChatHistory (selectedChat store u inp.selectedChatIdx) 3,
                       Effect.getChatHistory (selectedChat store u inp.selectedChatIdx) 10,
                       Effect.insertMessage u (selectedChat store u inp.selectedChatIdx)
                         "user" q,
                       Effect.agentInvoke q,
                       Effect.insertMessage u (selectedChat store u inp.selectedChatIdx)
                         "assistant" inp.agentResponse] := by
                    simp [stageAuth, hAuth, hU, hEfalse, hSave, hDel, hNew, hOut, hcid,
                      hcond, hcur, hq]
                  rw [heff]
                  refine effects_owned_closer (selectedChat store u inp.selectedChatIdx)
                    (u ++ "_" ++ inp.freshSuffix) store u hOwnSel hFresh _ ?_
                  intro e he
                  fin_cases he <;> simp [Effect.chatId]

/-- C2: (first part) every Chat-Store read or write a run issues — rename,
delete, bounded history read, message insert — names a chat_id that is not
owned by any user other than the session's authenticated user: whenever
the effect's chat_id resolves in the pre-run store, its owner is the
session user (fresh ids resolve to nothing); (second part) the store's
`insert_message` rejects (fails closed, returning no new store, hence
mutating nothing) any write to a chat_id owned by a different user. -/
theorem chat_ops_scoped_to_session_owner :
    (∀ (appStatus : String) (sess : SessionState) (store : Store) (inp : RunInput)
        (u : String),
      sess.authenticated = true →
      sess.username = some u →
      (store.chats.map Prod.fst).Nodup →
      (∀ p ∈ store.chats, p.1 ≠ "") →
      get_chat store (u ++ "_" ++ inp.freshSuffix) = none →
      ∀ e ∈ (run appStatus sess store inp).effects, ∀ c, e.chatId = some c →
        ∀ ch, get_chat store c = some ch → ch.owner = u) ∧
    (∀ (s : Store) (v cid r m : String) (ch : Chat),
      get_chat s cid = some ch → ch.owner ≠ v →
      insert_message s v cid r m = none) := by
  constructor
  · intro appStatus sess store inp u hAuth hU hnd hne hFresh
    by_cases hOn : pyUpper (pyStrip appStatus) = "ON"
    · rw [run, stageGate_on _ _ hOn, stageLogin_of_auth _ _ hAuth,
        stageRegister_of_auth _ _ hAuth]
      exact stageAuth_effects_owned inp sess store u hAuth hU hnd hne hFresh
    · rw [run_of_gate_off _ _ _ _ hOn]
      intro e he
      exact absurd he (List.not_mem_nil e)
  · intro s v cid r m ch hch ho
    exact insert_message_foreign s v cid r m ch hch ho

/-- Witness for C2: in a run of "alice"'s session, the history read the
controller issues targets a chat owned by "alice"; and "bob" writing to
"alice"'s chat is rejected with no store produced. -/
theorem chat_ops_scoped_to_session_owner_witness :
    (⟨"alice", none, [⟨"assistant", "hello"⟩]⟩ : Chat).owner = "alice" ∧
    insert_message ⟨[], [("alice_11112222", ⟨"alice", none, [⟨"assistant", "hello"⟩]⟩)]⟩
      "bob" "alice_11112222" "user" "hi" = none := by
  constructor
  · exact chat_ops_scoped_to_session_owner.1 "ON"
      { authenticated := true, username := some "alice", name := some "Alice A"
        chat_id := some (some "alice_11112222") }
      ⟨[], [("alice_11112222", ⟨"alice", none, [⟨"assistant", "hello"⟩]⟩)]⟩
      (idleInput "s") "alice" rfl rfl (by decide) (by decide) (by decide)
      (Effect.getChatHistory "alice_11112222" 3) (by decide) "alice_11112222" rfl
      ⟨"alice", none, [⟨"assistant", "hello"⟩]⟩ (by decide)
  · exact chat_ops_scoped_to_session_owner.2 _ "bob" "alice_11112222" "user" "hi"
      ⟨"alice", none, [⟨"assistant", "hello"⟩]⟩ (by decide) (by decide)

theorem run_delete (appStatus : String) (sess : SessionState) (store : Store)
    (inp : RunInput) (u d : String) (rest : List String) (ch : Chat)
    (hOn : pyUpper (pyStrip appStatus) = "ON")
    (hAuth : sess.authenticated = true)
    (hU : sess.username = some u)
    (hList : (get_all_chat_ids_for_user store u).map Prod.fst = d :: rest)
    (hSel : selectedChat store u inp.selectedChatIdx = d)
    (hSave : inp.saveNameBtn = false)
    (hDel : inp.deleteBtn = true)
    (hchd : get_chat store d = some ch) :
    run appStatus sess store inp =
      { session := { sess with chat_id := some none }
        store := { store with chats := store.chats.filter (fun p => !(p.1 == d)) }
        effects := [Effect.getAllChats u, Effect.deleteChat d]
        errors := [], halted := some .rerun, render := none } := by
  have hEfalse : ((get_all_chat_ids_for_user store u).map Prod.fst).isEmpty = false := by
    rw [hList]
    rfl
  have hdel := delete_chat_some store d ch hchd
  rw [run, stageGate_on _ _ hOn, stageLogin_of_auth _ _ hAuth,
    stageRegister_of_auth _ _ hAuth]
  simp [stageAuth, hAuth, hU, hEfalse, hSel, hSave, hDel, hdel]

theorem run_autocreate (appStatus : String) (sess : SessionState) (store : Store)
    (inp : RunInput) (u : String)
    (hOn : pyUpper (pyStrip appStatus) = "ON")
    (hAuth : sess.authenticated = true)
    (hU : sess.username = some u)
    (hEmpty : get_all_chat_ids_for_user store u = [])
    (hFresh : get_chat store (u ++ "_" ++ inp.freshSuffix) = none) :
    run appStatus sess store inp =
      { session := { sess with chat_id := some (some (u ++ "_" ++ inp.freshSuffix)) }
        store := { store with chats := store.chats ++
          [(u ++ "_" ++ inp.freshSuffix, ⟨u, none, [⟨"assistant", greetingNoChats u⟩]⟩)] }
        effects := [Effect.getAllChats u, Effect.insertMessage u
          (u ++ "_" ++ inp.freshSuffix) "assistant" (greetingNoChats u)]
        errors := [], halted := some .rerun, render := none } := by
  have hins := insert_message_fresh store u (u ++ "_" ++ inp.freshSuffix) "assistant"
    (greetingNoChats u) hFresh
  have hmap : (get_all_chat_ids_for_user store u).map Prod.fst = [] := by
    rw [hEmpty]
    rfl
  rw [run, stageGate_on _ _ hOn, stageLogin_of_auth _ _ hAuth,
    stageRegister_of_auth _ _ hAuth]
  simp [stageAuth, hAuth, hU, hmap, hins]

theorem run_reselect (appStatus : String) (sess : SessionState) (store : Store)
    (inp : RunInput) (u c : String) (rest : List String)
    (hOn : pyUpper (pyStrip appStatus) = "ON")
    (hAuth : sess.authenticated = true)
    (hU : sess.username = some u)
    (hList : (get_all_chat_ids_for_user store u).map Prod.fst = c :: rest)
    (hSel : selectedChat store u inp.selectedChatIdx = c)
    (hSave : inp.saveNameBtn = false) (hDel : inp.deleteBtn = false)
    (hNew : inp.newChatBtn = false) (hOut : inp.logoutBtn = false)
    (hCur : sess.chat_id = some none)
    (hcne : c ≠ "") :
    run appStatus sess store inp =
      { session := { sess with chat_id := some (some c) }
        store := store
        effects := [Effect.getAllChats u]
        errors := [], halted := some .rerun, render := none } := by
  have hEfalse : ((get_all_chat_ids_for_user store u).map Prod.fst).isEmpty = false := by
    rw [hList]
    rfl
  rw [run, stageGate_on _ _ hOn, stageLogin_of_auth _ _ hAuth,
    stageRegister_of_auth _ _ hAuth]
  simp [stageAuth, hAuth, hU, hEfalse, hSel, hSave, hDel, hNew, hOut, hCur, hcne]

theorem map_fst_filter_key (l : List (String × Option String)) (d : String) :
    (l.filter (fun p => !(p.1 == d))).map Prod.fst =
      (l.map Prod.fst).filter (fun x => !(x == d)) := by
  induction l with
  | nil => rfl
  | cons p t ih =>
    by_cases hk : p.1 = d <;>
      simp [List.filter_cons, hk, ih, -List.filter_filter]

theorem user_chats_keys_sublist (s : Store) (u : String) :
    List.Sublist ((get_all_chat_ids_for_user s u).map Prod.fst)
      (s.chats.map Prod.fst) := by
  unfold get_all_chat_ids_for_user
  rw [List.map_map]
  exact List.Sublist.map _ (List.filter_sublist s.chats)

/-- C7: deleting the currently active chat clears `active_chat_id` (the
session's chat_id becomes None) and removes the chat from the store; the
deleting run and the following run render nothing — a new active chat is
first selected from the user's remaining chats or freshly created — and
when the message view next renders, its active chat is not the deleted
chat and is owned by the session's user. -/
theorem delete_active_chat_clears_and_reselects
    (appStatus : String) (sess : SessionState) (store : Store) (inp : RunInput)
    (u d s2 s3 : String) (rest : List String) (ch : Chat)
    (hOn : pyUpper (pyStrip appStatus) = "ON")
    (hAuth : sess.authenticated = true)
    (hU : sess.username = some u)
    (hnd : (store.chats.map Prod.fst).Nodup)
    (hne : ∀ p ∈ store.chats, p.1 ≠ "")
    (hList : (get_all_chat_ids_for_user store u).map Prod.fst = d :: rest)
    (hSel : selectedChat store u inp.selectedChatIdx = d)
    (hSave : inp.saveNameBtn = false)
    (hDel : inp.deleteBtn = true)
    (hCur : sess.chat_id = some (some d))
    (hchd : get_chat store d = some ch)
    (hF2 : get_chat store (u ++ "_" ++ s2) = none) :
    (run appStatus sess store inp).session.chat_id = some none ∧
    get_chat (run appStatus sess store inp).store d = none ∧
    (run appStatus sess store inp).render = none ∧
    (run appStatus (run appStatus sess store inp).session
      (run appStatus sess store inp).store (idleInput s2)).render = none ∧
    ∃ ri, (run appStatus
        (run appStatus (run appStatus sess store inp).session
          (run appStatus sess store inp).store (idleInput s2)).session
        (run appStatus (run appStatus sess store inp).session
          (run appStatus sess store inp).store (idleInput s2)).store
        (idleInput s3)).render = some ri ∧
      ri.chat_id ≠ d ∧
      ∃ ch2, get_chat (run appStatus
          (run appStatus (run appStatus sess store inp).session
            (run appStatus sess store inp).store (idleInput s2)).session
          (run appStatus (run appStatus sess store inp).session
            (run appStatus sess store inp).store (idleInput s2)).store
          (idleInput s3)).store ri.chat_id = some ch2 ∧ ch2.owner = u := by
  have hr1 := run_delete appStatus sess store inp u d rest ch hOn hAuth hU hList hSel
    hSave hDel hchd
  rw [hr1]
  dsimp only
  have hdel_d : get_chat
      { store with chats := store.chats.filter (fun p => !(p.1 == d)) } d = none := by
    rw [get_chat_filter_key]
    simp
  have hne' : ∀ p ∈ store.chats.filter (fun p => !(p.1 == d)), p.1 ≠ "" :=
    fun p hp => hne p (List.mem_of_mem_filter hp)
  have hnd' : ((store.chats.filter (fun p => !(p.1 == d))).map Prod.fst).Nodup :=
    hnd.sublist (List.Sublist.map _ (List.filter_sublist _))
  have hndu : ((get_all_chat_ids_for_user store u).map Prod.fst).Nodup :=
    hnd.sublist (user_chats_keys_sublist store u)
  have hdnotin : d ∉ rest := by
    rw [hList] at hndu
    exact (List.nodup_cons.mp hndu).1
  have hmapD2 : (get_all_chat_ids_for_user
      { store with chats := store.chats.filter (fun p => !(p.1 == d)) } u).map
      Prod.fst = rest := by
    rw [get_all_filter_key, map_fst_filter_key, hList, List.filter_cons]
    have hdd : (!(d == d)) = false := by simp
    rw [hdd, if_neg (by simp)]
    exact List.filter_eq_self.mpr (fun x hx => by
      have hxd : x ≠ d := fun he => hdnotin (he ▸ hx)
      simp [hxd])
  cases rest with
  | nil =>
    have hEmpty2 : get_all_chat_ids_for_user
        { store with chats := store.chats.filter (fun p => !(p.1 == d)) } u = [] :=
      List.map_eq_nil.mp hmapD2
    have hF2' : get_chat
        { store with chats := store.chats.filter (fun p => !(p.1 == d)) }
        (u ++ "_" ++ s2) = none := by
      rw [get_chat_filter_key]
      by_cases h : u ++ "_" ++ s2 = d
      · simp [h]
      · simp [h, hF2]
    have hr2 : run appStatus { sess with chat_id := some none }
        { store with chats := store.chats.filter (fun p => !(p.1 == d)) }
        (idleInput s2) =
        { session := { sess with chat_id := some (some (u ++ "_" ++ s2)) }
          store := { store with chats := (store.chats.filter (fun p => !(p.1 == d))) ++
            [(u ++ "_" ++ s2, ⟨u, none, [⟨"assistant", greetingNoChats u⟩]⟩)] }
          effects := [Effect.getAllChats u, Effect.insertMessage u (u ++ "_" ++ s2)
            "assistant" (greetingNoChats u)]
          errors := [], halted := some .rerun, render := none } :=
      run_autocreate appStatus { sess with chat_id := some none }
        { store with chats := store.chats.filter (fun p => !(p.1 == d)) }
        (idleInput s2) u hOn hAuth hU hEmpty2 hF2'
    rw [hr2]
    dsimp only
    have hlist3 : (get_all_chat_ids_for_user
        { store with chats := (store.chats.filter (fun p => !(p.1 == d))) ++
          [(u ++ "_" ++ s2, ⟨u, none, [⟨"assistant", greetingNoChats u⟩]⟩)] } u).map
        Prod.fst = [u ++ "_" ++ s2] := by
      rw [show ({ store with chats := (store.chats.filter (fun p => !(p.1 == d))) ++
          [(u ++ "_" ++ s2, ⟨u, none, [⟨"assistant", greetingNoChats u⟩]⟩)] } : Store) =
        { ({ store with chats := store.chats.filter (fun p => !(p.1 == d)) } : Store) with
          chats := ({ store with chats := store.chats.filter (fun p => !(p.1 == d)) } : Store).chats ++
            [(u ++ "_" ++ s2, ⟨u, none, [⟨"assistant", greetingNoChats u⟩]⟩)] } from rfl]
      rw [get_all_append, hEmpty2]
      rfl
    have hsel3 : selectedChat
        { store with chats := (store.chats.filter (fun p => !(p.1 == d))) ++
          [(u ++ "_" ++ s2, ⟨u, none, [⟨"assistant", greetingNoChats u⟩]⟩)] } u 0 =
        u ++ "_" ++ s2 :=
      selectedChat_cons_zero _ _ _ _ hlist3
    have hr3 := run_render_idle appStatus
      { sess with chat_id := some (some (u ++ "_" ++ s2)) }
      { store with chats := (store.chats.filter (fun p => !(p.1 == d))) ++
        [(u ++ "_" ++ s2, ⟨u, none, [⟨"assistant", greetingNoChats u⟩]⟩)] }
      (idleInput s3) u (u ++ "_" ++ s2) [] hOn hAuth hU hlist3 hsel3 rfl rfl rfl rfl
      rfl rfl
    rw [hr3]
    dsimp only
    refine ⟨rfl, hdel_d, rfl, rfl, _, rfl, ?_, ?_⟩
    · intro he
      have he' : u ++ "_" ++ s2 = d := he
      rw [he'] at hF2
      rw [hF2] at hchd
      exact Option.noConfusion hchd
    · refine ⟨⟨u, none, [⟨"assistant", greetingNoChats u⟩]⟩, ?_, rfl⟩
      exact get_chat_append_fresh
        { store with chats := store.chats.filter (fun p => !(p.1 == d)) } _ _ hF2'
  | cons c2 rest' =>
    have hc2mem : c2 ∈ (get_all_chat_ids_for_user
        { store with chats := store.chats.filter (fun p => !(p.1 == d)) } u).map
        Prod.fst := by
      rw [hmapD2]
      exact List.mem_cons_self _ _
    have hc2ne : c2 ≠ "" := user_chat_ne_empty _ u c2 hne' hc2mem
    have hsel2 : selectedChat
        { store with chats := store.chats.filter (fun p => !(p.1 == d)) } u 0 = c2 :=
      selectedChat_cons_zero _ _ _ _ hmapD2
    have hr2 : run appStatus { sess with chat_id := some none }
        { store with chats := store.chats.filter (fun p => !(p.1 == d)) }
        (idleInput s2) =
        { session := { sess with chat_id := some (some c2) }
          store := { store with chats := store.chats.filter (fun p => !(p.1 == d)) }
          effects := [Effect.getAllChats u]
          errors := [], halted := some .rerun, render := none } :=
      run_reselect appStatus { sess with chat_id := some none }
        { store with chats := store.chats.filter (fun p => !(p.1 == d)) }
        (idleInput s2) u c2 rest' hOn hAuth hU hmapD2 hsel2 rfl rfl rfl rfl rfl hc2ne
    rw [hr2]
    dsimp only
    have hr3 := run_render_idle appStatus { sess with chat_id := some (some c2) }
      { store with chats := store.chats.filter (fun p => !(p.1 == d)) }
      (idleInput s3) u c2 rest' hOn hAuth hU hmapD2 hsel2 rfl rfl rfl rfl rfl rfl
    rw [hr3]
    dsimp only
    have hc2d : c2 ≠ d := fun he => hdnotin (he ▸ List.mem_cons_self c2 rest')
    obtain ⟨ch2, hch2, how2⟩ := mem_user_chats_owned
      { store with chats := store.chats.filter (fun p => !(p.1 == d)) } u c2 hnd' hc2mem
    exact ⟨rfl, hdel_d, rfl, rfl, _, rfl, hc2d, ch2, hch2, how2⟩

/-- Witness for C7: "alice" deletes her active chat "alice_aaaa0001"; the
session's chat_id is cleared to None and the chat is gone from the store. -/
theorem delete_active_chat_clears_and_reselects_witness :
    (run "ON"
      { authenticated := true, username := some "alice", name := some "Alice A"
        chat_id := some (some "alice_aaaa0001") }
      ⟨[], [("alice_aaaa0001", ⟨"alice", none, [⟨"assistant", "one"⟩]⟩),
            ("alice_bbbb0002", ⟨"alice", none, [⟨"assistant", "two"⟩]⟩)]⟩
      { idleInput "s" with deleteBtn := true }).session.chat_id = some none ∧
    get_chat (run "ON"
      { authenticated := true, username := some "alice", name := some "Alice A"
        chat_id := some (some "alice_aaaa0001") }
      ⟨[], [("alice_aaaa0001", ⟨"alice", none, [⟨"assistant", "one"⟩]⟩),
            ("alice_bbbb0002", ⟨"alice", none, [⟨"assistant", "two"⟩]⟩)]⟩
      { idleInput "s" with deleteBtn := true }).store "alice_aaaa0001" = none := by
  have h := delete_active_chat_clears_and_reselects "ON"
    { authenticated := true, username := some "alice", name := some "Alice A"
      chat_id := some (some "alice_aaaa0001") }
    ⟨[], [("alice_aaaa0001", ⟨"alice", none, [⟨"assistant", "one"⟩]⟩),
          ("alice_bbbb0002", ⟨"alice", none, [⟨"assistant", "two"⟩]⟩)]⟩
    { idleInput "s" with deleteBtn := true }
    "alice" "alice_aaaa0001" "cccc0003" "dddd0004" ["alice_bbbb0002"]
    ⟨"alice", none, [⟨"assistant", "one"⟩]⟩
    (by decide) rfl rfl (by decide) (by decide) (by decide) (by decide) rfl rfl rfl
    (by decide) (by decide)
  exact ⟨h.1, h.2.1⟩

end AIGPT
